import Mathlib

/-!
Shallow embedding of `ceilometer/network/notifications.py`: the generic
Neutron notification pipeline (`NetworkNotificationBase.process_notification`),
the per-resource-type descriptors (subclasses), and the bandwidth custom
transform (`Bandwidth.process_notification`).

Python dictionaries are modelled as association lists of string keys over a
JSON-like value type `Val`; Python runtime failures (KeyError, TypeError,
AttributeError) are modelled by an `Err` type, and the generator is modelled
as an `Except Err` computation returning the list of yielded samples together
with the (possibly mutated) input message.
-/

set_option autoImplicit false

namespace Ceilometer

/-- A Python value as it appears in a decoded notification envelope:
strings, integers, booleans, None, lists, and string-keyed dicts. -/
inductive Val where
  | none : Val
  | bool : Bool → Val
  | int : Int → Val
  | str : String → Val
  | list : List Val → Val
  | dict : List (String × Val) → Val

/-- Python runtime failures reachable in `process_notification`:
`keyError k` models `KeyError(k)` from `d[k]` on a dict missing `k`
(the MissingFieldError class of conditions), `typeError` models
`TypeError` (indexing or iterating a value of the wrong type), and
`attrError` models `AttributeError` (calling `.get`/`.endswith`/`.split`
on a value that lacks the method). -/
inductive Err where
  | keyError : String → Err
  | typeError : Err
  | attrError : Err
  deriving DecidableEq, Repr

/-- First value bound to key `k` in an association list (Python dict lookup). -/
def getKey : List (String × Val) → String → Option Val
  | [], _ => Option.none
  | (k0, v) :: rest, k => if k0 = k then some v else getKey rest k

/-- Bind key `k` to `v`: replace the existing binding in place, or append
(Python `d[k] = v`). -/
def setKey : List (String × Val) → String → Val → List (String × Val)
  | [], k, v => [(k, v)]
  | (k0, v0) :: rest, k, v =>
      if k0 = k then (k, v) :: rest else (k0, v0) :: setKey rest k v

/-- Python `d[k]`: `KeyError` when the key is absent, `TypeError` when the
subscripted value is not a dict. -/
def dictIndex : Val → String → Except Err Val
  | .dict kvs, k =>
      match getKey kvs k with
      | some v => .ok v
      | Option.none => .error (.keyError k)
  | _, _ => .error .typeError

/-- Python `d.get(k)`: `None` when the key is absent, `AttributeError` when
the receiver is not a dict. -/
def pyDictGet : Val → String → Except Err Val
  | .dict kvs, k => .ok ((getKey kvs k).getD Val.none)
  | _, _ => .error .attrError

/-- Python `d[k] = v` as a value update; `TypeError` when the target does not
support string-keyed item assignment. -/
def dictSet : Val → String → Val → Except Err Val
  | .dict kvs, k, v => .ok (.dict (setKey kvs k v))
  | _, _, _ => .error .typeError

/-- Python truthiness of a value (`if resource:`). -/
def truthy : Val → Bool
  | .none => false
  | .bool b => b
  | .int n => n != 0
  | .str s => s != ""
  | .list l => !l.isEmpty
  | .dict kvs => !kvs.isEmpty

/-- Python `for x in v`: lists iterate their elements, dicts their keys,
strings their characters; other values raise `TypeError`. -/
def pyIter : Val → Except Err (List Val)
  | .list l => .ok l
  | .dict kvs => .ok (kvs.map (fun kv => Val.str kv.1))
  | .str s => .ok (s.data.map (fun c => Val.str (String.singleton c)))
  | _ => .error .typeError

/-- A value that must be a string to receive `.endswith`/`.split`;
`AttributeError` otherwise. -/
def asStr : Val → Except Err String
  | .str s => .ok s
  | _ => .error .attrError

/-- Helper for `pySplitDot`: split the remaining characters on `.`,
accumulating the current segment in reverse. -/
def splitDotAux : List Char → List Char → List String
  | [], acc => [String.mk acc.reverse]
  | c :: rest, acc =>
      if c = '.' then String.mk acc.reverse :: splitDotAux rest []
      else splitDotAux rest (c :: acc)

/-- Python `s.split('.')`: every occurrence of `.` separates two (possibly
empty) segments, and the empty string splits to one empty segment. -/
def pySplitDot (s : String) : List String := splitDotAux s.data []

/-- Python `s.endswith(t)`: `t` is a suffix of `s`, character-wise. -/
def pyEndsWith (s t : String) : Bool := t.data.isSuffixOf s.data

/-- Modelled from the spec: the sample-kind constants `TYPE_GAUGE`,
`TYPE_DELTA`, `TYPE_CUMULATIVE` of `ceilometer/sample.py`, which is not under
src/. The spec calls the gauge kind STATE and the delta kind DELTA, with
CUMULATIVE reserved and unused by this core. -/
inductive SType where
  | gauge : SType
  | delta : SType
  | cumulative : SType
  deriving DecidableEq, Repr

/-- Modelled from the spec: the `Sample` record of `ceilometer/sample.py`,
which is not under src/. Fields are the ones the spec's data model names:
measurement name, kind, unit, volume, identity attribution, resource id, and
the raw message retained for traceability. -/
structure Sample where
  name : String
  type : SType
  unit : String
  volume : Val
  user_id : Val
  project_id : Val
  resource_id : Val
  message : Val

/-- Modelled from the spec: `Sample.from_notification` of
`ceilometer/sample.py`, which is not under src/; per the spec it builds an
immutable sample record carrying the given per-resource envelope as the
sample's raw message. -/
def Sample.from_notification (name : String) (type : SType) (unit : String)
    (volume : Val) (user_id : Val) (project_id : Val) (resource_id : Val)
    (message : Val) : Sample :=
  ⟨name, type, unit, volume, user_id, project_id, resource_id, message⟩

/-- A `NetworkNotificationBase` subclass as data: its `resource_name` class
attribute and the optional `counter_name` / `unit` overrides read through
`getattr(self, attr, self.resource_name)`. -/
structure Descriptor where
  resource_name : String
  counter_name : Option String
  unit : Option String
  deriving DecidableEq, Repr

/-- The `for resource in resources:` loop body of
`NetworkNotificationBase.process_notification`, lines 91-114: for each
resource, rebind `resource_message['payload']` to it, yield the gauge sample,
and yield the extra delta sample when the event type splits on `.` into more
than two segments. Argument evaluation follows the source order: user id,
then tenant id, then `resource['id']`; the event-type split happens after
the first yield of the iteration. -/
def emitLoop (counter_name unit_value : String) (resource_message : Val) :
    List Val → Except Err (List Sample)
  | [] => .ok []
  | resource :: rest => do
      let rm ← dictSet resource_message "payload" resource
      let u ← dictIndex rm "_context_user_id"
      let p ← dictIndex rm "_context_tenant_id"
      let rid ← dictIndex resource "id"
      let s1 := Sample.from_notification counter_name .gauge unit_value
        (.int 1) u p rid rm
      let et ← dictIndex rm "event_type"
      let ets ← asStr et
      let segs := pySplitDot ets
      let tail ← emitLoop counter_name unit_value rm rest
      if segs.length > 2 then
        let s2 := Sample.from_notification (counter_name ++ "." ++ segs[1]!)
          .delta unit_value (.int 1) u p rid rm
        .ok (s1 :: s2 :: tail)
      else
        .ok (s1 :: tail)

/-- `NetworkNotificationBase.process_notification` (lines 76-114), with the
in-place mutation of the input message made explicit: the result pairs the
final value of `message` (the `update.start` branch writes
`resource['id'] = message['payload']['id']` into the resource object held
inside the original payload) with the list of yielded samples. -/
def process_notification (d : Descriptor) (message : Val) :
    Except Err (Val × List Sample) := do
  let counter_name := d.counter_name.getD d.resource_name
  let unit_value := d.unit.getD d.resource_name
  let payload ← dictIndex message "payload"
  let resource ← pyDictGet payload d.resource_name
  if truthy resource then
    let et ← dictIndex message "event_type"
    let ets ← asStr et
    if pyEndsWith ets "update.start" then
      let pid ← dictIndex payload "id"
      let resource2 ← dictSet resource "id" pid
      let payload2 ← dictSet payload d.resource_name resource2
      let message2 ← dictSet message "payload" payload2
      let samples ← emitLoop counter_name unit_value message2 [resource2]
      .ok (message2, samples)
    else
      let samples ← emitLoop counter_name unit_value message [resource]
      .ok (message, samples)
  else
    let resources ← pyDictGet payload (d.resource_name ++ "s")
    let items ← pyIter resources
    let samples ← emitLoop counter_name unit_value message items
    .ok (message, samples)

/-- `Bandwidth.process_notification` (lines 166-175): one delta sample read
directly from the payload's `bytes`, `tenant_id` and `label_id` fields, with
no user attribution. -/
def bandwidth_process_notification (message : Val) :
    Except Err (List Sample) := do
  let payload ← dictIndex message "payload"
  let b ← dictIndex payload "bytes"
  let t ← dictIndex payload "tenant_id"
  let l ← dictIndex payload "label_id"
  .ok [Sample.from_notification "bandwidth" .delta "B" b .none t l message]

/-- The `Network` subclass. -/
def Network : Descriptor := ⟨"network", Option.none, Option.none⟩

/-- The `Subnet` subclass. -/
def Subnet : Descriptor := ⟨"subnet", Option.none, Option.none⟩

/-- The `Port` subclass. -/
def Port : Descriptor := ⟨"port", Option.none, Option.none⟩

/-- The `Router` subclass. -/
def Router : Descriptor := ⟨"router", Option.none, Option.none⟩

/-- The `FloatingIP` subclass: counter name and unit overridden. -/
def FloatingIP : Descriptor := ⟨"floatingip", some "ip.floating", some "ip"⟩

/-- The `Pool` subclass. -/
def Pool : Descriptor :=
  ⟨"pool", some "network.services.lb.pool", Option.none⟩

/-- The `Vip` subclass. -/
def Vip : Descriptor := ⟨"vip", some "network.services.lb.vip", Option.none⟩

/-- The `Member` subclass. -/
def Member : Descriptor :=
  ⟨"member", some "network.services.lb.member", Option.none⟩

/-- The `HealthMonitor` subclass. -/
def HealthMonitor : Descriptor :=
  ⟨"health_monitor", some "network.services.lb.health_monitor", Option.none⟩

/-- The `Firewall` subclass. -/
def Firewall : Descriptor :=
  ⟨"firewall", some "network.services.firewall", Option.none⟩

/-- The `FirewallPolicy` subclass. -/
def FirewallPolicy : Descriptor :=
  ⟨"firewall_policy", some "network.services.firewall.policy", Option.none⟩

/-- The `FirewallRule` subclass. -/
def FirewallRule : Descriptor :=
  ⟨"firewall_rule", some "network.services.firewall.rule", Option.none⟩

/-- The `VPNService` subclass. -/
def VPNService : Descriptor :=
  ⟨"vpnservice", some "network.services.vpn", Option.none⟩

/-- The `IPSecPolicy` subclass. -/
def IPSecPolicy : Descriptor :=
  ⟨"ipsecpolicy", some "network.services.vpn.ipsecpolicy", Option.none⟩

/-- The `IKEPolicy` subclass. -/
def IKEPolicy : Descriptor :=
  ⟨"ikepolicy", some "network.services.vpn.ikepolicy", Option.none⟩

/-- The `IPSecSiteConnection` subclass. -/
def IPSecSiteConnection : Descriptor :=
  ⟨"ipsec_site_connection", some "network.services.vpn.connections",
   Option.none⟩

/-- The generic-pipeline subclasses declared in the source file, in
declaration order (the `Bandwidth` subclass overrides
`process_notification` and is handled separately). -/
def genericDescriptors : List Descriptor :=
  [Network, Subnet, Port, Router, FloatingIP, Pool, Vip, Member,
   HealthMonitor, Firewall, FirewallPolicy, FirewallRule, VPNService,
   IPSecPolicy, IKEPolicy, IPSecSiteConnection]

/-- An envelope whose payload holds neither `network` nor `networks`. -/
def c1msg : Val := .dict [("payload", .dict [])]

/-- Envelope bindings for a `network.create.end` event, before the loop
rebinds `payload`. -/
def c2mkvs : List (String × Val) :=
  [("event_type", .str "network.create.end"), ("payload", .dict []),
   ("_context_user_id", .str "u1"), ("_context_tenant_id", .str "p1")]

/-- A resource carrying its own id. -/
def c2res : Val := .dict [("id", .str "n1")]

/-- An envelope whose singular resource carries an empty-string id. -/
def c3msg : Val := .dict [("event_type", .str "network.exists"),
  ("payload", .dict [("network", .dict [("id", .str "")])]),
  ("_context_user_id", .str "u1"), ("_context_tenant_id", .str "p1")]

/-- The per-resource view of `c3msg`. -/
def c3rm : Val := .dict [("event_type", .str "network.exists"),
  ("payload", .dict [("id", .str "")]),
  ("_context_user_id", .str "u1"), ("_context_tenant_id", .str "p1")]

/-- The sample the pipeline emits for `c3msg`. -/
def c3sample : Sample :=
  ⟨"network", .gauge, "network", .int 1, .str "u1", .str "p1", .str "", c3rm⟩

/-- A bandwidth envelope. -/
def c3bmsg : Val := .dict [("payload",
  .dict [("bytes", .int 1), ("tenant_id", .str "t"), ("label_id", .str "l")])]

/-- The sample the bandwidth transform emits for `c3bmsg`. -/
def c3bsample : Sample :=
  ⟨"bandwidth", .delta, "B", .int 1, .none, .str "t", .str "l", c3bmsg⟩

/-- Envelope bindings lacking both context fields, with an empty resource
collection. -/
def c4mkvs : List (String × Val) :=
  [("event_type", .str "network.exists"),
   ("payload", .dict [("networks", .list [])])]

/-- Envelope bindings lacking the tenant context field, with one singular
resource. -/
def c4akvs : List (String × Val) :=
  [("event_type", .str "network.exists"),
   ("payload", .dict [("network", .dict [("id", .str "n1")])]),
   ("_context_user_id", .str "u1")]

/-- Envelope bindings lacking the tenant context field, with an
`update.start` singular resource (backfill branch). -/
def c4ckvs : List (String × Val) :=
  [("event_type", .str "network.update.start"),
   ("payload", .dict [("id", .str "n1"),
     ("network", .dict [("name", .str "x")])]),
   ("_context_user_id", .str "u1")]

/-- Envelope bindings lacking the tenant context field, with a non-empty
plural resource collection. -/
def c4dkvs : List (String × Val) :=
  [("event_type", .str "network.exists"),
   ("payload", .dict [("networks", .list [.dict [("id", .str "n1")]])]),
   ("_context_user_id", .str "u1")]

/-- Envelope bindings for an `update.start` event whose resource object
lacks its own id (spec scenario D). -/
def c5kvs : List (String × Val) :=
  [("event_type", .str "network.update.start"),
   ("payload", .dict [("id", .str "n1"),
     ("network", .dict [("name", .str "changed")])]),
   ("_context_user_id", .str "u1"), ("_context_tenant_id", .str "p1")]

/-- A payload holding the singular key bound to a falsy (empty) dict next to
a non-empty plural collection. -/
def c6pkvs : List (String × Val) :=
  [("network", .dict []), ("networks", .list [.dict [("id", .str "n1")]])]

/-- An envelope around `c6pkvs`. -/
def c6msg : Val := .dict [("event_type", .str "network.exists"),
  ("payload", .dict c6pkvs),
  ("_context_user_id", .str "u1"), ("_context_tenant_id", .str "p1")]

/-- Envelope bindings for a truthy singular resource on a two-segment event
type. -/
def c6akvs : List (String × Val) :=
  [("event_type", .str "network.exists"),
   ("payload", .dict [("network", .dict [("id", .str "n1")])]),
   ("_context_user_id", .str "u1"), ("_context_tenant_id", .str "p1")]

/-- The bandwidth envelope of spec scenario C. -/
def c7msg : Val := .dict [("event_type", .str "l3.meter"),
  ("payload", .dict [("bytes", .int 4096), ("tenant_id", .str "p1"),
    ("label_id", .str "lbl1")])]

/-- Envelope bindings of spec scenario A. -/
def c8kvs : List (String × Val) :=
  [("event_type", .str "network.create.end"),
   ("payload", .dict [("network", .dict [("id", .str "n1")])]),
   ("_context_user_id", .str "u1"), ("_context_tenant_id", .str "p1")]

/-- The per-resource view of the `c8kvs` envelope. -/
def c8rm : Val := .dict [("event_type", .str "network.create.end"),
  ("payload", .dict [("id", .str "n1")]),
  ("_context_user_id", .str "u1"), ("_context_tenant_id", .str "p1")]

/-- The gauge sample emitted for `c8kvs`. -/
def c8s1 : Sample :=
  ⟨"network", .gauge, "network", .int 1, .str "u1", .str "p1", .str "n1",
   c8rm⟩

/-- The delta sample emitted for `c8kvs`. -/
def c8s2 : Sample :=
  ⟨"network.create", .delta, "network", .int 1, .str "u1", .str "p1",
   .str "n1", c8rm⟩

/-- Envelope bindings for an `update.start` event (used to exercise the
mutation-then-rerun behaviour). -/
def c9kvs : List (String × Val) :=
  [("event_type", .str "network.update.start"),
   ("payload", .dict [("id", .str "n1"),
     ("network", .dict [("name", .str "changed")])]),
   ("_context_user_id", .str "u1"), ("_context_tenant_id", .str "p1")]

/-- The resource of `c9kvs` after the id backfill. -/
def c9r2 : Val := .dict [("name", .str "changed"), ("id", .str "n1")]

/-- The `c9kvs` envelope after the in-place backfill mutation. -/
def c9m2 : Val := .dict [("event_type", .str "network.update.start"),
  ("payload", .dict [("id", .str "n1"), ("network", c9r2)]),
  ("_context_user_id", .str "u1"), ("_context_tenant_id", .str "p1")]

/-- The per-resource view of the mutated `c9kvs` envelope. -/
def c9rm : Val := .dict [("event_type", .str "network.update.start"),
  ("payload", c9r2),
  ("_context_user_id", .str "u1"), ("_context_tenant_id", .str "p1")]

/-- The gauge sample emitted for `c9kvs`. -/
def c9s1 : Sample :=
  ⟨"network", .gauge, "network", .int 1, .str "u1", .str "p1", .str "n1",
   c9rm⟩

/-- The delta sample emitted for `c9kvs`. -/
def c9s2 : Sample :=
  ⟨"network.update", .delta, "network", .int 1, .str "u1", .str "p1",
   .str "n1", c9rm⟩

/-- A resource object already carrying its own (different) id. -/
def c10rkvs : List (String × Val) := [("id", .str "OLD"), ("name", .str "x")]

/-- A payload wrapping `c10rkvs` with a different top-level id. -/
def c10pkvs : List (String × Val) :=
  [("id", .str "NEW"), ("network", .dict c10rkvs)]

/-- An `update.start` envelope around `c10pkvs`. -/
def c10kvs : List (String × Val) :=
  [("event_type", .str "network.update.start"), ("payload", .dict c10pkvs),
   ("_context_user_id", .str "u1"), ("_context_tenant_id", .str "p1")]

/-- Envelope bindings with only a plural resource collection. -/
def c10bkvs : List (String × Val) :=
  [("event_type", .str "network.exists"),
   ("payload", .dict [("networks", .list [.dict [("id", .str "n1")]])]),
   ("_context_user_id", .str "u1"), ("_context_tenant_id", .str "p1")]

section Lemmas

@[simp]
theorem ok_bind {α β : Type} (a : α) (f : α → Except Err β) :
    (Except.ok a : Except Err α) >>= f = f a := rfl

@[simp]
theorem error_bind {α β : Type} (e : Err) (f : α → Except Err β) :
    (Except.error e : Except Err α) >>= f = Except.error e := rfl

@[simp]
theorem getKey_setKey_self (l : List (String × Val)) (k : String) (v : Val) :
    getKey (setKey l k v) k = some v := by
  induction l with
  | nil => simp [getKey, setKey]
  | cons hd tl ih =>
      by_cases h : hd.1 = k <;> simp [getKey, setKey, h, ih]

theorem getKey_setKey_ne (l : List (String × Val)) (k k' : String) (v : Val)
    (h : k' ≠ k) : getKey (setKey l k v) k' = getKey l k' := by
  induction l with
  | nil => simp [getKey, setKey, Ne.symm h]
  | cons hd tl ih =>
      obtain ⟨k0, v0⟩ := hd
      by_cases h2 : k0 = k
      · subst h2
        simp [getKey, setKey, Ne.symm h]
      · simp [getKey, setKey, h2, ih]

@[simp]
theorem setKey_setKey_self (l : List (String × Val)) (k : String) (v w : Val) :
    setKey (setKey l k v) k w = setKey l k w := by
  induction l with
  | nil => simp [setKey]
  | cons hd tl ih =>
      by_cases h : hd.1 = k <;> simp [setKey, h, ih]

@[simp]
theorem setKey_ne_nil (l : List (String × Val)) (k : String) (v : Val) :
    setKey l k v ≠ [] := by
  cases l with
  | nil => simp [setKey]
  | cons hd tl => by_cases h : hd.1 = k <;> simp [setKey, h]

theorem dictIndex_error (v : Val) (k : String) (e : Err)
    (h : dictIndex v k = .error e) : e = .keyError k ∨ e = .typeError := by
  cases v <;> simp [dictIndex] at h <;> try exact Or.inr h.symm
  case dict kvs =>
    cases h2 : getKey kvs k <;> simp [h2] at h
    exact Or.inl h.symm

theorem asStr_error (v : Val) (e : Err) (h : asStr v = .error e) :
    e = .attrError := by
  cases v <;> simp [asStr] at h <;> exact h.symm

theorem pyDictGet_error (v : Val) (k : String) (e : Err)
    (h : pyDictGet v k = .error e) : e = .attrError := by
  cases v <;> simp [pyDictGet] at h <;> exact h.symm

theorem pyIter_error (v : Val) (e : Err) (h : pyIter v = .error e) :
    e = .typeError := by
  cases v <;> simp [pyIter] at h <;> exact h.symm

theorem dictSet_error (v w : Val) (k : String) (e : Err)
    (h : dictSet v k w = .error e) : e = .typeError := by
  cases v <;> simp [dictSet] at h <;> exact h.symm

@[simp]
theorem emitLoop_nil (cn un : String) (rm : Val) :
    emitLoop cn un rm [] = .ok [] := rfl

theorem bind_ok_eq_map {α β : Type} (e : Except Err α) (f : α → β) :
    (e >>= fun a => Except.ok (f a)) = e.map f := by
  cases e <;> rfl

theorem dictIndex_ok (v : Val) (k : String) (w : Val)
    (h : dictIndex v k = .ok w) :
    ∃ kvs, v = .dict kvs ∧ getKey kvs k = some w := by
  cases v <;> simp [dictIndex] at h
  case dict kvs =>
    cases h2 : getKey kvs k <;> simp [h2] at h
    exact ⟨kvs, rfl, h ▸ h2⟩

theorem dictSet_ok (v w v2 : Val) (k : String)
    (h : dictSet v k w = .ok v2) :
    ∃ kvs, v = .dict kvs ∧ v2 = .dict (setKey kvs k w) := by
  cases v <;> simp [dictSet] at h
  case dict kvs => exact ⟨kvs, rfl, h.symm⟩

theorem asStr_ok (v : Val) (s : String) (h : asStr v = .ok s) :
    v = .str s := by
  cases v <;> simp [asStr] at h
  case str s2 => rw [h]

theorem truthy_setKey (l : List (String × Val)) (k : String) (v : Val) :
    truthy (.dict (setKey l k v)) = true := by
  have h := setKey_ne_nil l k v
  cases h2 : setKey l k v with
  | nil => exact absurd h2 h
  | cons hd tl => simp [truthy, h2]

/-- Every sample produced by the emit loop over a dict-shaped
`resource_message` carries as its raw message the base envelope with only
the `payload` binding replaced by one of the looped resources, and its
`resource_id` is exactly that resource's `id` entry. -/
theorem emitLoop_mem (cn un : String) :
    ∀ (mkvs : List (String × Val)) (rs : List Val) (ss : List Sample),
      emitLoop cn un (.dict mkvs) rs = .ok ss →
      ∀ s ∈ ss, ∃ r, r ∈ rs ∧
        s.message = .dict (setKey mkvs "payload" r) ∧
        dictIndex r "id" = .ok s.resource_id := by
  intro mkvs rs
  induction rs generalizing mkvs with
  | nil =>
      intro ss h s hs
      simp [emitLoop] at h
      subst h
      simp at hs
  | cons r rest ih =>
      intro ss h s hs
      rw [emitLoop] at h
      simp [dictSet] at h
      cases hu : dictIndex (Val.dict (setKey mkvs "payload" r)) "_context_user_id" with
      | error e => simp [hu] at h
      | ok u =>
      cases hp : dictIndex (Val.dict (setKey mkvs "payload" r)) "_context_tenant_id" with
      | error e => simp [hu, hp] at h
      | ok p =>
      cases hr : dictIndex r "id" with
      | error e => simp [hu, hp, hr] at h
      | ok rid =>
      cases he : dictIndex (Val.dict (setKey mkvs "payload" r)) "event_type" with
      | error e => simp [hu, hp, hr, he] at h
      | ok et =>
      cases hes : asStr et with
      | error e => simp [hu, hp, hr, he, hes] at h
      | ok ets =>
      cases ht : emitLoop cn un (.dict (setKey mkvs "payload" r)) rest with
      | error e => simp [hu, hp, hr, he, hes, ht] at h
      | ok tail =>
          have htail := ih (setKey mkvs "payload" r) tail ht
          simp [hu, hp, hr, he, hes, ht] at h
          by_cases hlen : (pySplitDot ets).length > 2
          · simp [hlen] at h
            subst h
            simp [Sample.from_notification] at hs
            rcases hs with hs | hs | hs
            · exact ⟨r, by simp, by simp [hs, Sample.from_notification], by simp [hs, Sample.from_notification, hr]⟩
            · exact ⟨r, by simp, by simp [hs, Sample.from_notification], by simp [hs, Sample.from_notification, hr]⟩
            · obtain ⟨r2, hr2, hm2, hid2⟩ := htail s hs
              exact ⟨r2, by simp [hr2], by simpa using hm2, hid2⟩
          · simp [hlen] at h
            subst h
            simp at hs
            rcases hs with hs | hs
            · exact ⟨r, by simp, by simp [hs, Sample.from_notification], by simp [hs, Sample.from_notification, hr]⟩
            · obtain ⟨r2, hr2, hm2, hid2⟩ := htail s hs
              exact ⟨r2, by simp [hr2], by simpa using hm2, hid2⟩

/-- Every sample in a successful run of the generic pipeline carries the
input envelope with only `payload` rebound to some resource value whose `id`
entry is the sample's `resource_id`. -/
theorem process_ok_samples (d : Descriptor) (m m2 : Val) (ss : List Sample)
    (h : process_notification d m = .ok (m2, ss)) :
    ∀ s ∈ ss, ∃ mkvs r, m = .dict mkvs ∧
      s.message = .dict (setKey mkvs "payload" r) ∧
      dictIndex r "id" = .ok s.resource_id := by
  intro s hs
  cases m with
  | none => simp [process_notification, dictIndex] at h
  | bool b => simp [process_notification, dictIndex] at h
  | int n => simp [process_notification, dictIndex] at h
  | str s2 => simp [process_notification, dictIndex] at h
  | list l => simp [process_notification, dictIndex] at h
  | dict mkvs =>
      refine ⟨mkvs, ?_⟩
      simp only [process_notification] at h
      cases hpay : dictIndex (Val.dict mkvs) "payload" with
      | error e => simp [hpay] at h
      | ok payload =>
      cases hres : pyDictGet payload d.resource_name with
      | error e => simp [hpay, hres] at h
      | ok r =>
      simp only [hpay, hres, ok_bind] at h
      by_cases htr : truthy r = true
      · simp only [htr, if_true] at h
        cases het : dictIndex (Val.dict mkvs) "event_type" with
        | error e => simp [het] at h
        | ok et =>
        cases hets : asStr et with
        | error e => simp [het, hets] at h
        | ok ets =>
        simp only [het, hets, ok_bind] at h
        by_cases hup : pyEndsWith ets "update.start" = true
        · simp only [hup, if_true] at h
          cases hpid : dictIndex payload "id" with
          | error e => simp [hpid] at h
          | ok pid =>
          cases hr2 : dictSet r "id" pid with
          | error e => simp [hpid, hr2] at h
          | ok r2 =>
          cases hp2 : dictSet payload d.resource_name r2 with
          | error e => simp [hpid, hr2, hp2] at h
          | ok p2 =>
          cases hm2 : dictSet (Val.dict mkvs) "payload" p2 with
          | error e => simp [hpid, hr2, hp2, hm2] at h
          | ok msg2 =>
          simp only [hpid, hr2, hp2, hm2, ok_bind] at h
          cases hloop : emitLoop (d.counter_name.getD d.resource_name)
              (d.unit.getD d.resource_name) msg2 [r2] with
          | error e => simp [hloop] at h
          | ok samples =>
          simp only [hloop, ok_bind, Except.ok.injEq, Prod.mk.injEq] at h
          obtain ⟨h1, h2⟩ := h
          subst h2
          simp only [dictSet, Except.ok.injEq] at hm2
          rw [← hm2] at hloop
          obtain ⟨rv, hrv, hmsg, hid⟩ :=
            emitLoop_mem (d.counter_name.getD d.resource_name)
              (d.unit.getD d.resource_name) (setKey mkvs "payload" p2)
              [r2] samples hloop s hs
          rw [setKey_setKey_self] at hmsg
          exact ⟨rv, rfl, hmsg, hid⟩
        · simp only [hup, if_false, Bool.false_eq_true] at h
          cases hloop : emitLoop (d.counter_name.getD d.resource_name)
              (d.unit.getD d.resource_name) (.dict mkvs) [r] with
          | error e => simp [hloop] at h
          | ok samples =>
          simp only [hloop, ok_bind, Except.ok.injEq, Prod.mk.injEq] at h
          obtain ⟨h1, h2⟩ := h
          subst h2
          obtain ⟨rv, hrv, hmsg, hid⟩ :=
            emitLoop_mem (d.counter_name.getD d.resource_name)
              (d.unit.getD d.resource_name) mkvs [r] samples hloop s hs
          exact ⟨rv, rfl, hmsg, hid⟩
      · simp only [htr, if_false, Bool.false_eq_true] at h
        cases hrs : pyDictGet payload (d.resource_name ++ "s") with
        | error e => simp [htr, hrs] at h
        | ok rsv =>
        cases hit : pyIter rsv with
        | error e => simp [htr, hrs, hit] at h
        | ok items =>
        simp only [htr, hrs, hit, ok_bind, Bool.false_eq_true, if_false] at h
        cases hloop : emitLoop (d.counter_name.getD d.resource_name)
            (d.unit.getD d.resource_name) (.dict mkvs) items with
        | error e => simp [hloop] at h
        | ok samples =>
        simp only [hloop, ok_bind, Except.ok.injEq, Prod.mk.injEq] at h
        obtain ⟨h1, h2⟩ := h
        subst h2
        obtain ⟨rv, hrv, hmsg, hid⟩ :=
          emitLoop_mem (d.counter_name.getD d.resource_name)
            (d.unit.getD d.resource_name) mkvs items samples hloop s hs
        exact ⟨rv, rfl, hmsg, hid⟩

/-- When the tenant context key is present on the envelope, no step of the
emit loop fails with a `KeyError` on that key. -/
theorem emitLoop_tenant_present (cn un : String) :
    ∀ (mkvs : List (String × Val)) (v : Val) (rs : List Val),
      getKey mkvs "_context_tenant_id" = some v →
      emitLoop cn un (.dict mkvs) rs ≠
        .error (.keyError "_context_tenant_id") := by
  intro mkvs v rs
  induction rs generalizing mkvs with
  | nil => intro hv; simp [emitLoop]
  | cons r rest ih =>
      intro hv
      rw [emitLoop]
      simp only [dictSet, ok_bind]
      cases hu : dictIndex (Val.dict (setKey mkvs "payload" r))
          "_context_user_id" with
      | error e =>
          rcases dictIndex_error _ _ _ hu with he | he <;> simp [hu, he]
      | ok u =>
          have ht : dictIndex (Val.dict (setKey mkvs "payload" r))
              "_context_tenant_id" = .ok v := by
            have h4 := getKey_setKey_ne mkvs "payload" "_context_tenant_id" r
              (by decide)
            simp [dictIndex, h4, hv]
          simp only [hu, ht, ok_bind]
          cases hr : dictIndex r "id" with
          | error e =>
              rcases dictIndex_error _ _ _ hr with he | he <;> simp [hr, he]
          | ok rid =>
          cases he2 : dictIndex (Val.dict (setKey mkvs "payload" r))
              "event_type" with
          | error e =>
              rcases dictIndex_error _ _ _ he2 with he | he <;>
                simp [hr, he2, he]
          | ok et =>
          cases hes : asStr et with
          | error e =>
              have h3 := asStr_error _ _ hes
              simp [hr, he2, hes, h3]
          | ok ets =>
          have htail := ih (setKey mkvs "payload" r)
            (by rw [getKey_setKey_ne mkvs "payload" "_context_tenant_id" r
              (by decide)]; exact hv)
          cases hloop : emitLoop cn un (.dict (setKey mkvs "payload" r))
              rest with
          | error e =>
              simp only [hr, he2, hes, hloop, ok_bind, error_bind]
              intro heq
              injection heq with heq2
              rw [heq2] at hloop
              exact htail hloop
          | ok tail =>
              simp only [hr, he2, hes, hloop, ok_bind]
              split <;> simp

/-- With the tenant context key absent from the base envelope, the emit
loop over at least one resource fails with the tenant `KeyError` as soon as
the user-context read succeeds. -/
theorem emitLoop_tenant_missing (cn un : String)
    (mkvs : List (String × Val)) (u r : Val) (rest : List Val)
    (hu : getKey mkvs "_context_user_id" = some u)
    (hnone : getKey mkvs "_context_tenant_id" = Option.none) :
    emitLoop cn un (.dict mkvs) (r :: rest) =
      .error (.keyError "_context_tenant_id") := by
  rw [emitLoop]
  have h1 := getKey_setKey_ne mkvs "payload" "_context_user_id" r (by decide)
  have h2 := getKey_setKey_ne mkvs "payload" "_context_tenant_id" r
    (by decide)
  simp [dictSet, dictIndex, h1, h2, hu, hnone]

/-- With the tenant context key absent, the emit loop can only succeed on
an empty resource list, returning no samples. -/
theorem emitLoop_tenant_absent_ok (cn un : String)
    (mkvs : List (String × Val)) (rs : List Val) (ss : List Sample)
    (hnone : getKey mkvs "_context_tenant_id" = Option.none)
    (h : emitLoop cn un (.dict mkvs) rs = .ok ss) : ss = [] := by
  cases rs with
  | nil =>
      simp only [emitLoop_nil, Except.ok.injEq] at h
      exact h.symm
  | cons r rest =>
      rw [emitLoop] at h
      simp only [dictSet, ok_bind] at h
      cases hu : dictIndex (Val.dict (setKey mkvs "payload" r))
          "_context_user_id" with
      | error e => simp [hu] at h
      | ok u =>
          have h2 := getKey_setKey_ne mkvs "payload" "_context_tenant_id" r
            (by decide)
          have ht : dictIndex (Val.dict (setKey mkvs "payload" r))
              "_context_tenant_id" =
              .error (.keyError "_context_tenant_id") := by
            simp [dictIndex, h2, hnone]
          simp [hu, ht] at h

/-- With the tenant context key absent from the envelope, the generic
pipeline never succeeds with any sample: a successful run returns the empty
sequence. -/
theorem process_tenant_absent_ok (d : Descriptor)
    (mkvs : List (String × Val)) (m2 : Val) (ss : List Sample)
    (hnone : getKey mkvs "_context_tenant_id" = Option.none)
    (h : process_notification d (.dict mkvs) = .ok (m2, ss)) : ss = [] := by
  simp only [process_notification] at h
  cases hpay : dictIndex (Val.dict mkvs) "payload" with
  | error e => simp [hpay] at h
  | ok payload =>
  cases hres : pyDictGet payload d.resource_name with
  | error e => simp [hpay, hres] at h
  | ok r =>
  simp only [hpay, hres, ok_bind] at h
  by_cases htr : truthy r = true
  · simp only [htr, if_true] at h
    cases het : dictIndex (Val.dict mkvs) "event_type" with
    | error e => simp [het] at h
    | ok et =>
    cases hets : asStr et with
    | error e => simp [het, hets] at h
    | ok ets =>
    simp only [het, hets, ok_bind] at h
    by_cases hup : pyEndsWith ets "update.start" = true
    · simp only [hup, if_true] at h
      cases hpid : dictIndex payload "id" with
      | error e => simp [hpid] at h
      | ok pid =>
      cases hr2 : dictSet r "id" pid with
      | error e => simp [hpid, hr2] at h
      | ok r2 =>
      cases hp2 : dictSet payload d.resource_name r2 with
      | error e => simp [hpid, hr2, hp2] at h
      | ok p2 =>
      cases hm2 : dictSet (Val.dict mkvs) "payload" p2 with
      | error e => simp [hpid, hr2, hp2, hm2] at h
      | ok msg2 =>
      simp only [hpid, hr2, hp2, hm2, ok_bind] at h
      simp only [dictSet, Except.ok.injEq] at hm2
      subst hm2
      cases hloop : emitLoop (d.counter_name.getD d.resource_name)
          (d.unit.getD d.resource_name)
          (.dict (setKey mkvs "payload" p2)) [r2] with
      | error e => simp [hloop] at h
      | ok samples =>
      simp only [hloop, ok_bind, Except.ok.injEq, Prod.mk.injEq] at h
      obtain ⟨h1, h2⟩ := h
      subst h2
      exact emitLoop_tenant_absent_ok _ _ _ _ _
        (by rw [getKey_setKey_ne mkvs "payload" "_context_tenant_id" p2
          (by decide)]; exact hnone) hloop
    · simp only [hup, Bool.false_eq_true, if_false] at h
      cases hloop : emitLoop (d.counter_name.getD d.resource_name)
          (d.unit.getD d.resource_name) (.dict mkvs) [r] with
      | error e => simp [hloop] at h
      | ok samples =>
      simp only [hloop, ok_bind, Except.ok.injEq, Prod.mk.injEq] at h
      obtain ⟨h1, h2⟩ := h
      subst h2
      exact emitLoop_tenant_absent_ok _ _ _ _ _ hnone hloop
  · simp only [htr, Bool.false_eq_true, if_false] at h
    cases hrs : pyDictGet payload (d.resource_name ++ "s") with
    | error e => simp [hrs] at h
    | ok rsv =>
    cases hit : pyIter rsv with
    | error e => simp [hrs, hit] at h
    | ok items =>
    simp only [hrs, hit, ok_bind] at h
    cases hloop : emitLoop (d.counter_name.getD d.resource_name)
        (d.unit.getD d.resource_name) (.dict mkvs) items with
    | error e => simp [hloop] at h
    | ok samples =>
    simp only [hloop, ok_bind, Except.ok.injEq, Prod.mk.injEq] at h
    obtain ⟨h1, h2⟩ := h
    subst h2
    exact emitLoop_tenant_absent_ok _ _ _ _ _ hnone hloop

/-- When the tenant context key is present on the envelope, the generic
pipeline never fails with a `KeyError` on that key. -/
theorem process_no_tenant_keyError (d : Descriptor)
    (mkvs : List (String × Val)) (v : Val)
    (hv : getKey mkvs "_context_tenant_id" = some v) :
    process_notification d (.dict mkvs) ≠
      .error (.keyError "_context_tenant_id") := by
  simp only [process_notification]
  cases hpay : dictIndex (Val.dict mkvs) "payload" with
  | error e =>
      rcases dictIndex_error _ _ _ hpay with he | he <;> simp [hpay, he]
  | ok payload =>
  cases hres : pyDictGet payload d.resource_name with
  | error e =>
      have h3 := pyDictGet_error _ _ _ hres
      simp [hpay, hres, h3]
  | ok r =>
  simp only [hpay, hres, ok_bind]
  by_cases htr : truthy r = true
  · simp only [htr, if_true]
    cases het : dictIndex (Val.dict mkvs) "event_type" with
    | error e =>
        rcases dictIndex_error _ _ _ het with he | he <;> simp [het, he]
    | ok et =>
    cases hets : asStr et with
    | error e =>
        have h3 := asStr_error _ _ hets
        simp [het, hets, h3]
    | ok ets =>
    simp only [het, hets, ok_bind]
    by_cases hup : pyEndsWith ets "update.start" = true
    · simp only [hup, if_true]
      cases hpid : dictIndex payload "id" with
      | error e =>
          rcases dictIndex_error _ _ _ hpid with he | he <;> simp [hpid, he]
      | ok pid =>
      cases hr2 : dictSet r "id" pid with
      | error e =>
          have h3 := dictSet_error _ _ _ _ hr2
          simp [hpid, hr2, h3]
      | ok r2 =>
      cases hp2 : dictSet payload d.resource_name r2 with
      | error e =>
          have h3 := dictSet_error _ _ _ _ hp2
          simp [hpid, hr2, hp2, h3]
      | ok p2 =>
      cases hm2 : dictSet (Val.dict mkvs) "payload" p2 with
      | error e => simp [dictSet] at hm2
      | ok msg2 =>
      simp only [dictSet, Except.ok.injEq] at hm2
      subst hm2
      simp only [hpid, hr2, hp2, ok_bind]
      have hset : dictSet (Val.dict mkvs) "payload" p2 =
          .ok (Val.dict (setKey mkvs "payload" p2)) := by simp [dictSet]
      simp only [hset, ok_bind]
      have htail := emitLoop_tenant_present (d.counter_name.getD d.resource_name)
        (d.unit.getD d.resource_name) (setKey mkvs "payload" p2) v [r2]
        (by rw [getKey_setKey_ne mkvs "payload" "_context_tenant_id" p2
          (by decide)]; exact hv)
      cases hloop : emitLoop (d.counter_name.getD d.resource_name)
          (d.unit.getD d.resource_name) (.dict (setKey mkvs "payload" p2))
          [r2] with
      | error e =>
          simp only [hloop, ok_bind, error_bind]
          intro heq
          injection heq with heq2
          rw [heq2] at hloop
          exact htail hloop
      | ok samples => simp [hloop]
    · simp only [hup, Bool.false_eq_true, if_false]
      have htail := emitLoop_tenant_present (d.counter_name.getD d.resource_name)
        (d.unit.getD d.resource_name) mkvs v [r] hv
      cases hloop : emitLoop (d.counter_name.getD d.resource_name)
          (d.unit.getD d.resource_name) (.dict mkvs) [r] with
      | error e =>
          simp only [hloop, error_bind]
          intro heq
          injection heq with heq2
          rw [heq2] at hloop
          exact htail hloop
      | ok samples => simp [hloop]
  · simp only [htr, Bool.false_eq_true, if_false]
    cases hrs : pyDictGet payload (d.resource_name ++ "s") with
    | error e =>
        have h3 := pyDictGet_error _ _ _ hrs
        simp [hrs, h3]
    | ok rsv =>
    cases hit : pyIter rsv with
    | error e =>
        have h3 := pyIter_error _ _ hit
        simp [hrs, hit, h3]
    | ok items =>
    simp only [hrs, hit, ok_bind]
    have htail := emitLoop_tenant_present (d.counter_name.getD d.resource_name)
      (d.unit.getD d.resource_name) mkvs v items hv
    cases hloop : emitLoop (d.counter_name.getD d.resource_name)
        (d.unit.getD d.resource_name) (.dict mkvs) items with
    | error e =>
        simp only [hloop, error_bind]
        intro heq
        injection heq with heq2
        rw [heq2] at hloop
        exact htail hloop
    | ok samples => simp [hloop]

/-- One pass of the emit loop over a single resource: one gauge sample,
plus one delta sample exactly when the event type has more than two
dot-segments. -/
theorem emitLoop_single (cn un : String) (mkvs : List (String × Val))
    (r u p rid : Val) (ets : String)
    (hu : dictIndex (.dict (setKey mkvs "payload" r)) "_context_user_id" =
      .ok u)
    (hp : dictIndex (.dict (setKey mkvs "payload" r)) "_context_tenant_id" =
      .ok p)
    (hr : dictIndex r "id" = .ok rid)
    (he : dictIndex (.dict (setKey mkvs "payload" r)) "event_type" =
      .ok (.str ets)) :
    emitLoop cn un (.dict mkvs) [r] = .ok (
      if (pySplitDot ets).length > 2 then
        [Sample.from_notification cn .gauge un (.int 1) u p rid
           (.dict (setKey mkvs "payload" r)),
         Sample.from_notification (cn ++ "." ++ (pySplitDot ets)[1]!) .delta
           un (.int 1) u p rid (.dict (setKey mkvs "payload" r))]
      else
        [Sample.from_notification cn .gauge un (.int 1) u p rid
           (.dict (setKey mkvs "payload" r))]) := by
  rw [emitLoop]
  simp only [dictSet, ok_bind, hu, hp, hr, he, asStr, emitLoop_nil]
  split <;> rfl

/-- The singular branch of the generic pipeline on a non-`update.start`
event type: the truthy value under `resource_name` is the one resource fed
to the emit loop, and the envelope is left unchanged. -/
theorem process_singular (d : Descriptor) (mkvs pkvs : List (String × Val))
    (ets : String)
    (hp : getKey mkvs "payload" = some (.dict pkvs))
    (htr : truthy ((getKey pkvs d.resource_name).getD Val.none) = true)
    (he : getKey mkvs "event_type" = some (.str ets))
    (hes : pyEndsWith ets "update.start" = false) :
    process_notification d (.dict mkvs) =
      (emitLoop (d.counter_name.getD d.resource_name)
         (d.unit.getD d.resource_name) (.dict mkvs)
         [(getKey pkvs d.resource_name).getD Val.none]).map
        (fun ss => (.dict mkvs, ss)) := by
  have hpay : dictIndex (Val.dict mkvs) "payload" = .ok (.dict pkvs) := by
    simp [dictIndex, hp]
  have hres : pyDictGet (.dict pkvs) d.resource_name =
      .ok ((getKey pkvs d.resource_name).getD Val.none) := by
    simp [pyDictGet]
  have het : dictIndex (Val.dict mkvs) "event_type" = .ok (.str ets) := by
    simp [dictIndex, he]
  simp only [process_notification, hpay, hres, ok_bind, htr, if_true, het,
    asStr, hes, Bool.false_eq_true, if_false]
  exact bind_ok_eq_map ..

/-- The plural branch of the generic pipeline: when the singular lookup is
falsy, the value under the pluralized key is iterated and its items are fed
to the emit loop unchanged; the envelope is left unchanged. -/
theorem process_plural (d : Descriptor) (mkvs pkvs : List (String × Val))
    (items : List Val)
    (hp : getKey mkvs "payload" = some (.dict pkvs))
    (htr : truthy ((getKey pkvs d.resource_name).getD Val.none) = false)
    (hpl : getKey pkvs (d.resource_name ++ "s") = some (.list items)) :
    process_notification d (.dict mkvs) =
      (emitLoop (d.counter_name.getD d.resource_name)
         (d.unit.getD d.resource_name) (.dict mkvs) items).map
        (fun ss => (.dict mkvs, ss)) := by
  have hpay : dictIndex (Val.dict mkvs) "payload" = .ok (.dict pkvs) := by
    simp [dictIndex, hp]
  have hres : pyDictGet (.dict pkvs) d.resource_name =
      .ok ((getKey pkvs d.resource_name).getD Val.none) := by
    simp [pyDictGet]
  have hres2 : pyDictGet (.dict pkvs) (d.resource_name ++ "s") =
      .ok (.list items) := by
    simp [pyDictGet, hpl]
  simp only [process_notification, hpay, hres, ok_bind, htr,
    Bool.false_eq_true, if_false, hres2, pyIter]
  exact bind_ok_eq_map ..

/-- The singular branch of the generic pipeline on an `update.start` event
type: the payload's top-level id overwrites the resource's `id` entry, the
mutation is written back into the envelope, and the rewritten resource is
the one resource fed to the emit loop. -/
theorem process_backfill (d : Descriptor)
    (mkvs pkvs rkvs : List (String × Val)) (x : Val) (ets : String)
    (hp : getKey mkvs "payload" = some (.dict pkvs))
    (hr : getKey pkvs d.resource_name = some (.dict rkvs))
    (hne : rkvs ≠ [])
    (he : getKey mkvs "event_type" = some (.str ets))
    (hes : pyEndsWith ets "update.start" = true)
    (hx : getKey pkvs "id" = some x) :
    process_notification d (.dict mkvs) =
      (emitLoop (d.counter_name.getD d.resource_name)
         (d.unit.getD d.resource_name)
         (.dict (setKey mkvs "payload" (.dict (setKey pkvs d.resource_name
            (.dict (setKey rkvs "id" x))))))
         [.dict (setKey rkvs "id" x)]).map
        (fun ss => (.dict (setKey mkvs "payload"
           (.dict (setKey pkvs d.resource_name
             (.dict (setKey rkvs "id" x))))), ss)) := by
  have hpay : dictIndex (Val.dict mkvs) "payload" = .ok (.dict pkvs) := by
    simp [dictIndex, hp]
  have hres : pyDictGet (.dict pkvs) d.resource_name = .ok (.dict rkvs) := by
    simp [pyDictGet, hr]
  have htr : truthy (.dict rkvs) = true := by
    cases h2 : rkvs with
    | nil => exact absurd h2 hne
    | cons hd tl => simp [truthy, h2]
  have het : dictIndex (Val.dict mkvs) "event_type" = .ok (.str ets) := by
    simp [dictIndex, he]
  have hpid : dictIndex (.dict pkvs) "id" = .ok x := by
    simp [dictIndex, hx]
  simp only [process_notification, hpay, hres, ok_bind, htr, if_true, het,
    asStr, hes, hpid, dictSet]
  exact bind_ok_eq_map ..

end Lemmas

/-- C1, counterexample: for the `Network` descriptor and an envelope whose
payload holds neither `network` nor `networks`, the generic pipeline does
not return an empty sample sequence without failing — consuming it fails
with a TypeError-class condition (the loop iterates the `None` returned by
the plural lookup). -/
theorem c1_counterexample :
    dictIndex c1msg "payload" = .ok (.dict []) ∧
    process_notification Network c1msg = .error .typeError := ⟨rfl, rfl⟩

/-- C1, amended: for every envelope whose dict payload contains neither the
key `resource_name` nor the key `resource_name + "s"`, the generic pipeline
fails with a TypeError-class condition instead of returning an empty sample
sequence. -/
theorem c1_missing_keys_fail (d : Descriptor)
    (mkvs pkvs : List (String × Val))
    (hp : getKey mkvs "payload" = some (.dict pkvs))
    (h1 : getKey pkvs d.resource_name = Option.none)
    (h2 : getKey pkvs (d.resource_name ++ "s") = Option.none) :
    process_notification d (.dict mkvs) = .error .typeError := by
  have hpay : dictIndex (Val.dict mkvs) "payload" = .ok (.dict pkvs) := by
    simp [dictIndex, hp]
  simp [process_notification, hpay, pyDictGet, h1, h2, truthy, pyIter]

/-- Witness for the amended C1 at a concrete envelope. -/
theorem c1_missing_keys_fail_witness :
    process_notification Network c1msg = .error .typeError :=
  c1_missing_keys_fail Network [("payload", .dict [])] [] rfl rfl rfl

/-- C2: for each resource the generic pipeline emits, exactly one gauge
(STATE) sample — name the counter name, unit the descriptor unit, volume 1 —
and exactly one additional delta sample iff the envelope's event type splits
on `.` into more than two segments; the delta sample's name is the counter
name extended with the second segment, and its unit, volume and identity
fields equal the gauge sample's. -/
theorem c2_per_resource_samples (cn un : String)
    (mkvs : List (String × Val)) (r u p rid : Val) (ets : String)
    (hu : dictIndex (.dict (setKey mkvs "payload" r)) "_context_user_id" =
      .ok u)
    (hp : dictIndex (.dict (setKey mkvs "payload" r)) "_context_tenant_id" =
      .ok p)
    (hr : dictIndex r "id" = .ok rid)
    (he : dictIndex (.dict (setKey mkvs "payload" r)) "event_type" =
      .ok (.str ets)) :
    emitLoop cn un (.dict mkvs) [r] = .ok (
      if (pySplitDot ets).length > 2 then
        [Sample.from_notification cn .gauge un (.int 1) u p rid
           (.dict (setKey mkvs "payload" r)),
         Sample.from_notification (cn ++ "." ++ (pySplitDot ets)[1]!) .delta
           un (.int 1) u p rid (.dict (setKey mkvs "payload" r))]
      else
        [Sample.from_notification cn .gauge un (.int 1) u p rid
           (.dict (setKey mkvs "payload" r))]) :=
  emitLoop_single cn un mkvs r u p rid ets hu hp hr he

/-- Witness for C2 on a three-segment event type. -/
theorem c2_per_resource_samples_witness :
    emitLoop "network" "network" (.dict c2mkvs) [c2res] = .ok
      [Sample.from_notification "network" .gauge "network" (.int 1)
         (.str "u1") (.str "p1") (.str "n1")
         (.dict (setKey c2mkvs "payload" c2res)),
       Sample.from_notification ("network" ++ "." ++ "create") .delta
         "network" (.int 1) (.str "u1") (.str "p1") (.str "n1")
         (.dict (setKey c2mkvs "payload" c2res))] := by
  have h := c2_per_resource_samples "network" "network" c2mkvs c2res
    (.str "u1") (.str "p1") (.str "n1") "network.create.end" rfl rfl rfl rfl
  exact h.trans (by rfl)

/-- C3, counterexample: the generic pipeline emits, for a resource whose
`id` entry is the empty string, exactly one sample, and that sample's
`resource_id` is empty — so the invariant that every emitted sample carries
a non-empty resource id fails. -/
theorem c3_counterexample :
    process_notification Network c3msg = .ok (c3msg, [c3sample]) ∧
    c3sample.resource_id = .str "" := ⟨rfl, rfl⟩

/-- C3, amended: every sample the engine emits carries as `resource_id`
exactly the `id` entry of the resource stored in that sample's own raw
message payload (generic path), resp. the payload's `label_id` entry
(bandwidth path); a resource without an identifying entry never yields a
sample because the pipeline fails instead, but the identifier's value is
not validated, so an empty string is passed through. -/
theorem c3_resource_id_provenance :
    (∀ (d : Descriptor) (m m2 : Val) (ss : List Sample),
       process_notification d m = .ok (m2, ss) →
       ∀ s ∈ ss, ∃ r, dictIndex s.message "payload" = .ok r ∧
         dictIndex r "id" = .ok s.resource_id) ∧
    (∀ (m : Val) (ss : List Sample),
       bandwidth_process_notification m = .ok ss →
       ∀ s ∈ ss, ∃ pl, dictIndex s.message "payload" = .ok pl ∧
         dictIndex pl "label_id" = .ok s.resource_id) := by
  constructor
  · intro d m m2 ss h s hs
    obtain ⟨mkvs, r, hm, hmsg, hid⟩ := process_ok_samples d m m2 ss h s hs
    refine ⟨r, ?_, hid⟩
    rw [hmsg]
    simp [dictIndex]
  · intro m ss h s hs
    simp only [bandwidth_process_notification] at h
    cases hp : dictIndex m "payload" with
    | error e => simp [hp] at h
    | ok pl =>
    cases hb : dictIndex pl "bytes" with
    | error e => simp [hp, hb] at h
    | ok b =>
    cases hbt : dictIndex pl "tenant_id" with
    | error e => simp [hp, hb, hbt] at h
    | ok t =>
    cases hl : dictIndex pl "label_id" with
    | error e => simp [hp, hb, hbt, hl] at h
    | ok l =>
    simp only [hp, hb, hbt, hl, ok_bind, Except.ok.injEq] at h
    subst h
    simp at hs
    subst hs
    exact ⟨pl, by simpa [Sample.from_notification] using hp,
      by simpa [Sample.from_notification] using hl⟩

/-- Witness for the amended C3 at concrete generic and bandwidth runs. -/
theorem c3_resource_id_provenance_witness :
    (∃ r, dictIndex c3sample.message "payload" = .ok r ∧
       dictIndex r "id" = .ok c3sample.resource_id) ∧
    (∃ pl, dictIndex c3bsample.message "payload" = .ok pl ∧
       dictIndex pl "label_id" = .ok c3bsample.resource_id) :=
  ⟨c3_resource_id_provenance.1 Network c3msg c3msg [c3sample] rfl c3sample
     (by simp),
   c3_resource_id_provenance.2 c3bmsg [c3bsample] rfl c3bsample (by simp)⟩

/-- C4, counterexample: an envelope lacking the project/tenant context
field whose payload yields an empty resource collection is transformed
without any error (empty sample sequence), so lacking that field does not
always make the transformation fail. -/
theorem c4_counterexample :
    getKey c4mkvs "_context_tenant_id" = Option.none ∧
    process_notification Network (.dict c4mkvs) = .ok (.dict c4mkvs, []) :=
  ⟨rfl, rfl⟩

/-- C4, amended: in the generic path an envelope lacking the project/tenant
context field never yields a sample — a successful transformation returns
the empty sequence — and as soon as one resource reaches emission, on any
of the three extraction branches (truthy singular, `update.start` backfill,
plural collection) with the user-context read succeeding first, the
transformation fails with `KeyError` on `_context_tenant_id`, a
MissingFieldError-class condition escaping the single-envelope
transformation; an envelope carrying that field never fails with that
condition. -/
theorem c4_missing_tenant_field :
    (∀ (d : Descriptor) (mkvs : List (String × Val)) (m2 : Val)
       (ss : List Sample),
       getKey mkvs "_context_tenant_id" = Option.none →
       process_notification d (.dict mkvs) = .ok (m2, ss) → ss = []) ∧
    (∀ (d : Descriptor) (mkvs pkvs : List (String × Val)) (r u : Val)
       (ets : String),
       getKey mkvs "payload" = some (.dict pkvs) →
       getKey pkvs d.resource_name = some r →
       truthy r = true →
       getKey mkvs "event_type" = some (.str ets) →
       pyEndsWith ets "update.start" = false →
       getKey mkvs "_context_user_id" = some u →
       getKey mkvs "_context_tenant_id" = Option.none →
       process_notification d (.dict mkvs) =
         .error (.keyError "_context_tenant_id")) ∧
    (∀ (d : Descriptor) (mkvs pkvs rkvs : List (String × Val)) (x u : Val)
       (ets : String),
       getKey mkvs "payload" = some (.dict pkvs) →
       getKey pkvs d.resource_name = some (.dict rkvs) →
       rkvs ≠ [] →
       getKey mkvs "event_type" = some (.str ets) →
       pyEndsWith ets "update.start" = true →
       getKey pkvs "id" = some x →
       getKey mkvs "_context_user_id" = some u →
       getKey mkvs "_context_tenant_id" = Option.none →
       process_notification d (.dict mkvs) =
         .error (.keyError "_context_tenant_id")) ∧
    (∀ (d : Descriptor) (mkvs pkvs : List (String × Val)) (r : Val)
       (items : List Val) (u : Val),
       getKey mkvs "payload" = some (.dict pkvs) →
       truthy ((getKey pkvs d.resource_name).getD Val.none) = false →
       getKey pkvs (d.resource_name ++ "s") = some (.list (r :: items)) →
       getKey mkvs "_context_user_id" = some u →
       getKey mkvs "_context_tenant_id" = Option.none →
       process_notification d (.dict mkvs) =
         .error (.keyError "_context_tenant_id")) ∧
    (∀ (d : Descriptor) (mkvs : List (String × Val)) (v : Val),
       getKey mkvs "_context_tenant_id" = some v →
       process_notification d (.dict mkvs) ≠
         .error (.keyError "_context_tenant_id")) := by
  refine ⟨?_, ?_, ?_, ?_, ?_⟩
  · intro d mkvs m2 ss hnone h
    exact process_tenant_absent_ok d mkvs m2 ss hnone h
  · intro d mkvs pkvs r u ets hp hr htr he hes hu hnone
    have hloop := emitLoop_tenant_missing
      (d.counter_name.getD d.resource_name) (d.unit.getD d.resource_name)
      mkvs u ((getKey pkvs d.resource_name).getD Val.none) [] hu hnone
    rw [process_singular d mkvs pkvs ets hp (by rw [hr]; exact htr) he hes,
      hloop]
    rfl
  · intro d mkvs pkvs rkvs x u ets hp hr hne he hes hx hu hnone
    rw [process_backfill d mkvs pkvs rkvs x ets hp hr hne he hes hx]
    have hu2 : getKey (setKey mkvs "payload"
        (.dict (setKey pkvs d.resource_name (.dict (setKey rkvs "id" x)))))
        "_context_user_id" = some u := by
      rw [getKey_setKey_ne mkvs "payload" "_context_user_id" _ (by decide)]
      exact hu
    have hn2 : getKey (setKey mkvs "payload"
        (.dict (setKey pkvs d.resource_name (.dict (setKey rkvs "id" x)))))
        "_context_tenant_id" = Option.none := by
      rw [getKey_setKey_ne mkvs "payload" "_context_tenant_id" _
        (by decide)]
      exact hnone
    rw [emitLoop_tenant_missing (d.counter_name.getD d.resource_name)
      (d.unit.getD d.resource_name)
      (setKey mkvs "payload"
        (.dict (setKey pkvs d.resource_name (.dict (setKey rkvs "id" x)))))
      u (.dict (setKey rkvs "id" x)) [] hu2 hn2]
    rfl
  · intro d mkvs pkvs r items u hp htr hpl hu hnone
    rw [process_plural d mkvs pkvs (r :: items) hp htr hpl,
      emitLoop_tenant_missing (d.counter_name.getD d.resource_name)
        (d.unit.getD d.resource_name) mkvs u r items hu hnone]
    rfl
  · intro d mkvs v hv
    exact process_no_tenant_keyError d mkvs v hv

/-- Witness for the amended C4: a successful tenant-less run yields no
samples; concrete tenant-less envelopes on the singular, backfill and
plural branches each fail with the tenant `KeyError`; a concrete envelope
carrying the field does not. -/
theorem c4_missing_tenant_field_witness :
    ([] : List Sample) = [] ∧
    process_notification Network (.dict c4akvs) =
      .error (.keyError "_context_tenant_id") ∧
    process_notification Network (.dict c4ckvs) =
      .error (.keyError "_context_tenant_id") ∧
    process_notification Network (.dict c4dkvs) =
      .error (.keyError "_context_tenant_id") ∧
    process_notification Network (.dict c8kvs) ≠
      .error (.keyError "_context_tenant_id") :=
  ⟨c4_missing_tenant_field.1 Network c4mkvs (.dict c4mkvs) [] rfl rfl,
   c4_missing_tenant_field.2.1 Network c4akvs
     [("network", .dict [("id", .str "n1")])] (.dict [("id", .str "n1")])
     (.str "u1") "network.exists" rfl rfl rfl rfl rfl rfl rfl,
   c4_missing_tenant_field.2.2.1 Network c4ckvs
     [("id", .str "n1"), ("network", .dict [("name", .str "x")])]
     [("name", .str "x")] (.str "n1") (.str "u1") "network.update.start"
     rfl rfl (by simp) rfl rfl rfl rfl rfl,
   c4_missing_tenant_field.2.2.2.1 Network c4dkvs
     [("networks", .list [.dict [("id", .str "n1")]])]
     (.dict [("id", .str "n1")]) [] (.str "u1") rfl rfl rfl rfl rfl,
   c4_missing_tenant_field.2.2.2.2 Network c8kvs (.str "p1") rfl⟩

/-- C5: for a truthy singular resource on an event type ending in
`update.start`, where the resource object lacks its own `id` entry but the
payload carries a top-level id `x`, the extracted resource's id is `x` and
every emitted sample has `resource_id` equal to `x` (each sample's
raw-message payload is the backfilled resource, whose `id` entry is `x`). -/
theorem c5_update_start_id_backfill (d : Descriptor)
    (mkvs pkvs rkvs : List (String × Val)) (x u p : Val) (ets : String)
    (hp : getKey mkvs "payload" = some (.dict pkvs))
    (hr : getKey pkvs d.resource_name = some (.dict rkvs))
    (hne : rkvs ≠ [])
    (_hnoid : getKey rkvs "id" = Option.none)
    (he : getKey mkvs "event_type" = some (.str ets))
    (hes : pyEndsWith ets "update.start" = true)
    (hx : getKey pkvs "id" = some x)
    (hu : getKey mkvs "_context_user_id" = some u)
    (ht : getKey mkvs "_context_tenant_id" = some p) :
    ∃ (m2 : Val) (ss : List Sample),
      process_notification d (.dict mkvs) = .ok (m2, ss) ∧ ss ≠ [] ∧
      ∀ s ∈ ss, s.resource_id = x ∧
        ∃ rv, dictIndex s.message "payload" = .ok rv ∧
          dictIndex rv "id" = .ok x := by
  have hproc := process_backfill d mkvs pkvs rkvs x ets hp hr hne he hes hx
  set cn := d.counter_name.getD d.resource_name with hcn
  set un := d.unit.getD d.resource_name with hun
  set r2 : Val := .dict (setKey rkvs "id" x) with hr2
  set p2 : Val := .dict (setKey pkvs d.resource_name r2) with hp2
  set m2kvs := setKey mkvs "payload" p2 with hm2
  have hcollapse : setKey m2kvs "payload" r2 = setKey mkvs "payload" r2 := by
    rw [hm2]
    exact setKey_setKey_self ..
  have hu2 : dictIndex (.dict (setKey m2kvs "payload" r2))
      "_context_user_id" = .ok u := by
    rw [hcollapse]
    have h4 := getKey_setKey_ne mkvs "payload" "_context_user_id" r2
      (by decide)
    simp [dictIndex, h4, hu]
  have ht2 : dictIndex (.dict (setKey m2kvs "payload" r2))
      "_context_tenant_id" = .ok p := by
    rw [hcollapse]
    have h4 := getKey_setKey_ne mkvs "payload" "_context_tenant_id" r2
      (by decide)
    simp [dictIndex, h4, ht]
  have hid2 : dictIndex r2 "id" = .ok x := by
    rw [hr2]
    simp [dictIndex]
  have he2 : dictIndex (.dict (setKey m2kvs "payload" r2)) "event_type" =
      .ok (.str ets) := by
    rw [hcollapse]
    have h4 := getKey_setKey_ne mkvs "payload" "event_type" r2 (by decide)
    simp [dictIndex, h4, he]
  have hloop := emitLoop_single cn un m2kvs r2 u p x ets hu2 ht2 hid2 he2
  rw [hloop] at hproc
  simp only [Except.map] at hproc
  refine ⟨.dict m2kvs, _, hproc, ?_, ?_⟩
  · split <;> simp
  · intro s hs
    by_cases hc : (pySplitDot ets).length > 2
    · rw [if_pos hc] at hs
      simp only [List.mem_cons, List.not_mem_nil, or_false] at hs
      rcases hs with hs | hs <;> subst hs <;>
        exact ⟨rfl, r2, by simp [Sample.from_notification, dictIndex], hid2⟩
    · rw [if_neg hc] at hs
      simp only [List.mem_cons, List.not_mem_nil, or_false] at hs
      subst hs
      exact ⟨rfl, r2, by simp [Sample.from_notification, dictIndex], hid2⟩

/-- Witness for C5 at spec scenario D. -/
theorem c5_update_start_id_backfill_witness :
    ∃ (m2 : Val) (ss : List Sample),
      process_notification Network (.dict c5kvs) = .ok (m2, ss) ∧ ss ≠ [] ∧
      ∀ s ∈ ss, s.resource_id = .str "n1" ∧
        ∃ rv, dictIndex s.message "payload" = .ok rv ∧
          dictIndex rv "id" = .ok (.str "n1") :=
  c5_update_start_id_backfill Network c5kvs
    [("id", .str "n1"), ("network", .dict [("name", .str "changed")])]
    [("name", .str "changed")] (.str "n1") (.str "u1") (.str "p1")
    "network.update.start" rfl rfl (by simp) rfl rfl rfl rfl rfl rfl

/-- C6, counterexample: a payload that contains the key `network` (bound to
a falsy empty dict) next to a non-empty `networks` collection is processed
through the plural branch — the emitted sample's resource comes from
`networks` — so presence of the singular key alone does not select the
singular branch. -/
theorem c6_counterexample :
    getKey c6pkvs "network" = some (.dict []) ∧
    (process_notification Network c6msg).toOption.map
      (fun x => x.2.map Sample.resource_id) = some [.str "n1"] := ⟨rfl, rfl⟩

/-- C6, amended: the extractor branches on the truthiness of the singular
lookup, not on key containment: when the value under `resource_name` is
truthy it becomes the one resource (the plural key is not consulted), and
when it is absent or falsy the value under `resource_name + "s"` is used as
the resource collection. -/
theorem c6_truthiness_selects_branch :
    (∀ (d : Descriptor) (mkvs pkvs : List (String × Val)) (ets : String),
       getKey mkvs "payload" = some (.dict pkvs) →
       truthy ((getKey pkvs d.resource_name).getD Val.none) = true →
       getKey mkvs "event_type" = some (.str ets) →
       pyEndsWith ets "update.start" = false →
       process_notification d (.dict mkvs) =
         (emitLoop (d.counter_name.getD d.resource_name)
            (d.unit.getD d.resource_name) (.dict mkvs)
            [(getKey pkvs d.resource_name).getD Val.none]).map
           (fun ss => (.dict mkvs, ss))) ∧
    (∀ (d : Descriptor) (mkvs pkvs : List (String × Val)) (items : List Val),
       getKey mkvs "payload" = some (.dict pkvs) →
       truthy ((getKey pkvs d.resource_name).getD Val.none) = false →
       getKey pkvs (d.resource_name ++ "s") = some (.list items) →
       process_notification d (.dict mkvs) =
         (emitLoop (d.counter_name.getD d.resource_name)
            (d.unit.getD d.resource_name) (.dict mkvs) items).map
           (fun ss => (.dict mkvs, ss))) :=
  ⟨fun d mkvs pkvs ets hp htr he hes =>
     process_singular d mkvs pkvs ets hp htr he hes,
   fun d mkvs pkvs items hp htr hpl =>
     process_plural d mkvs pkvs items hp htr hpl⟩

/-- Witness for the amended C6: a truthy singular resource is used as the
one resource; a falsy singular value next to a plural collection selects
the collection. -/
theorem c6_truthiness_selects_branch_witness :
    process_notification Network (.dict c6akvs) =
      (emitLoop "network" "network" (.dict c6akvs)
         [.dict [("id", .str "n1")]]).map (fun ss => (.dict c6akvs, ss)) ∧
    process_notification Network c6msg =
      (emitLoop "network" "network" c6msg
         [.dict [("id", .str "n1")]]).map (fun ss => (c6msg, ss)) :=
  ⟨c6_truthiness_selects_branch.1 Network c6akvs
     [("network", .dict [("id", .str "n1")])] "network.exists" rfl rfl rfl
     rfl,
   c6_truthiness_selects_branch.2 Network
     [("event_type", .str "network.exists"), ("payload", .dict c6pkvs),
      ("_context_user_id", .str "u1"), ("_context_tenant_id", .str "p1")]
     c6pkvs [.dict [("id", .str "n1")]] rfl rfl rfl⟩

/-- C7: the bandwidth custom transform emits exactly one delta sample,
named `bandwidth` with unit `B`, whose volume, project id and resource id
come from the payload's `bytes`, `tenant_id` and `label_id` entries, with
no user attribution. -/
theorem c7_bandwidth_single_delta (mkvs pkvs : List (String × Val))
    (b t l : Val)
    (hp : getKey mkvs "payload" = some (.dict pkvs))
    (hb : getKey pkvs "bytes" = some b)
    (ht : getKey pkvs "tenant_id" = some t)
    (hl : getKey pkvs "label_id" = some l) :
    bandwidth_process_notification (.dict mkvs) =
      .ok [Sample.from_notification "bandwidth" .delta "B" b .none t l
        (.dict mkvs)] := by
  simp [bandwidth_process_notification, dictIndex, hp, hb, ht, hl]

/-- Witness for C7 at spec scenario C. -/
theorem c7_bandwidth_single_delta_witness :
    bandwidth_process_notification c7msg =
      .ok [⟨"bandwidth", .delta, "B", .int 4096, .none, .str "p1",
        .str "lbl1", c7msg⟩] :=
  c7_bandwidth_single_delta
    [("event_type", .str "l3.meter"),
     ("payload", .dict [("bytes", .int 4096), ("tenant_id", .str "p1"),
       ("label_id", .str "lbl1")])]
    [("bytes", .int 4096), ("tenant_id", .str "p1"),
     ("label_id", .str "lbl1")]
    (.int 4096) (.str "p1") (.str "lbl1") rfl rfl rfl rfl

/-- C8: each sample of a successful generic run carries as raw message a
per-resource view of the input envelope — the `payload` binding replaced by
that sample's own resource (whose `id` entry is the sample's
`resource_id`), every other binding unchanged from the input envelope. -/
theorem c8_raw_message_per_resource (d : Descriptor)
    (mkvs : List (String × Val)) (m2 : Val) (ss : List Sample)
    (h : process_notification d (.dict mkvs) = .ok (m2, ss)) :
    ∀ s ∈ ss, ∃ skvs r, s.message = .dict skvs ∧
      getKey skvs "payload" = some r ∧
      dictIndex r "id" = .ok s.resource_id ∧
      ∀ k, k ≠ "payload" → getKey skvs k = getKey mkvs k := by
  intro s hs
  obtain ⟨mkvs2, r, hm, hmsg, hid⟩ :=
    process_ok_samples d (.dict mkvs) m2 ss h s hs
  injection hm with hmeq
  subst hmeq
  exact ⟨setKey mkvs "payload" r, r, hmsg, getKey_setKey_self .., hid,
    fun k hk => getKey_setKey_ne mkvs "payload" k r hk⟩

/-- Witness for C8 at spec scenario A. -/
theorem c8_raw_message_per_resource_witness :
    ∃ skvs r, c8s1.message = .dict skvs ∧
      getKey skvs "payload" = some r ∧
      dictIndex r "id" = .ok c8s1.resource_id ∧
      ∀ k, k ≠ "payload" → getKey skvs k = getKey c8kvs k :=
  c8_raw_message_per_resource Network c8kvs (.dict c8kvs) [c8s1, c8s2] rfl
    c8s1 (by simp)

/-- C9: the engine keeps no cross-call state and is deterministic; running
the transformation again on the envelope value left behind by a successful
run — including the in-place `update.start` id backfill the first run wrote
into it — produces a field-for-field identical sample sequence and leaves
the envelope unchanged. -/
theorem c9_rerun_identical (d : Descriptor) (hd : d ∈ genericDescriptors)
    (m m2 : Val) (ss : List Sample)
    (h : process_notification d m = .ok (m2, ss)) :
    process_notification d m2 = .ok (m2, ss) := by
  have hidn : d.resource_name ≠ "id" := by fin_cases hd <;> decide
  cases m with
  | none => simp [process_notification, dictIndex] at h
  | bool b => simp [process_notification, dictIndex] at h
  | int n => simp [process_notification, dictIndex] at h
  | str s2 => simp [process_notification, dictIndex] at h
  | list l => simp [process_notification, dictIndex] at h
  | dict mkvs =>
  have h0 := h
  simp only [process_notification] at h
  cases hpay : dictIndex (Val.dict mkvs) "payload" with
  | error e => simp [hpay] at h
  | ok payload =>
  cases hres : pyDictGet payload d.resource_name with
  | error e => simp [hpay, hres] at h
  | ok r =>
  simp only [hpay, hres, ok_bind] at h
  by_cases htr : truthy r = true
  · simp only [htr, if_true] at h
    cases het : dictIndex (Val.dict mkvs) "event_type" with
    | error e => simp [het] at h
    | ok et =>
    cases hets : asStr et with
    | error e => simp [het, hets] at h
    | ok ets =>
    simp only [het, hets, ok_bind] at h
    by_cases hup : pyEndsWith ets "update.start" = true
    · simp only [hup, if_true] at h
      cases hpid : dictIndex payload "id" with
      | error e => simp [hpid] at h
      | ok pid =>
      cases hr2 : dictSet r "id" pid with
      | error e => simp [hpid, hr2] at h
      | ok r2 =>
      cases hp2 : dictSet payload d.resource_name r2 with
      | error e => simp [hpid, hr2, hp2] at h
      | ok p2 =>
      cases hm2 : dictSet (Val.dict mkvs) "payload" p2 with
      | error e => simp [hpid, hr2, hp2, hm2] at h
      | ok msg2 =>
      simp only [hpid, hr2, hp2, hm2, ok_bind] at h
      cases hloop : emitLoop (d.counter_name.getD d.resource_name)
          (d.unit.getD d.resource_name) msg2 [r2] with
      | error e => simp [hloop] at h
      | ok samples =>
      simp only [hloop, ok_bind, Except.ok.injEq, Prod.mk.injEq] at h
      obtain ⟨hm2eq, hsseq⟩ := h
      obtain ⟨rkvs, hrdict, hr2eq⟩ := dictSet_ok r pid r2 "id" hr2
      obtain ⟨pkvs, hpdict, hp2eq⟩ :=
        dictSet_ok payload r2 p2 d.resource_name hp2
      subst hrdict hpdict hr2eq hp2eq
      simp only [dictSet, Except.ok.injEq] at hm2
      subst hm2
      subst hm2eq hsseq
      obtain ⟨mkvs2, hmk, hpayg⟩ := dictIndex_ok _ _ _ hpay
      injection hmk with hmkeq
      subst hmkeq
      obtain ⟨mkvs3, hmk3, hetg⟩ := dictIndex_ok _ _ _ het
      injection hmk3 with hmk3eq
      subst hmk3eq
      have hetstr := asStr_ok _ _ hets
      subst hetstr
      obtain ⟨pkvs2, hpk, hpidg⟩ := dictIndex_ok _ _ _ hpid
      injection hpk with hpkeq
      subst hpkeq
      have hne : rkvs ≠ [] := by
        intro hnil
        rw [hnil] at htr
        simp [truthy] at htr
      have hbf := process_backfill d
        (setKey mkvs "payload"
          (.dict (setKey pkvs d.resource_name
            (.dict (setKey rkvs "id" pid)))))
        (setKey pkvs d.resource_name (.dict (setKey rkvs "id" pid)))
        (setKey rkvs "id" pid) pid ets
        (getKey_setKey_self ..)
        (getKey_setKey_self ..)
        (setKey_ne_nil rkvs "id" pid)
        (by
          rw [getKey_setKey_ne _ "payload" "event_type" _ (by decide)]
          exact hetg)
        hup
        (by
          rw [getKey_setKey_ne _ d.resource_name "id" _ (Ne.symm hidn)]
          exact hpidg)
      simp only [setKey_setKey_self] at hbf
      rw [hbf, hloop]
      rfl
    · simp only [hup, Bool.false_eq_true, if_false] at h
      cases hloop : emitLoop (d.counter_name.getD d.resource_name)
          (d.unit.getD d.resource_name) (.dict mkvs) [r] with
      | error e => simp [hloop] at h
      | ok samples =>
      simp only [hloop, ok_bind, Except.ok.injEq, Prod.mk.injEq] at h
      obtain ⟨hm2eq, hsseq⟩ := h
      subst hm2eq hsseq
      exact h0
  · simp only [htr, Bool.false_eq_true, if_false] at h
    cases hrs : pyDictGet payload (d.resource_name ++ "s") with
    | error e => simp [hrs] at h
    | ok rsv =>
    cases hit : pyIter rsv with
    | error e => simp [hrs, hit] at h
    | ok items =>
    simp only [hrs, hit, ok_bind] at h
    cases hloop : emitLoop (d.counter_name.getD d.resource_name)
        (d.unit.getD d.resource_name) (.dict mkvs) items with
    | error e => simp [hloop] at h
    | ok samples =>
    simp only [hloop, ok_bind, Except.ok.injEq, Prod.mk.injEq] at h
    obtain ⟨hm2eq, hsseq⟩ := h
    subst hm2eq hsseq
    exact h0

/-- Witness for C9: rerunning on the mutated scenario-D envelope
reproduces the same two samples. -/
theorem c9_rerun_identical_witness :
    process_notification Network c9m2 = .ok (c9m2, [c9s1, c9s2]) :=
  c9_rerun_identical Network (by simp [genericDescriptors])
    (.dict c9kvs) c9m2 [c9s1, c9s2] rfl

/-- C10: on the truthy-singular `update.start` branch, the id backfill is
unconditional — the resource fed to emission is the resource object with
its `id` entry overwritten by the payload's top-level id, even when a
different id was already present (the resource bindings are arbitrary) —
while resources taken from the plural-collection branch are fed to emission
entirely unchanged, with no backfill. -/
theorem c10_backfill_scope :
    (∀ (d : Descriptor) (mkvs pkvs rkvs : List (String × Val)) (x : Val)
       (ets : String),
       getKey mkvs "payload" = some (.dict pkvs) →
       getKey pkvs d.resource_name = some (.dict rkvs) →
       rkvs ≠ [] →
       getKey mkvs "event_type" = some (.str ets) →
       pyEndsWith ets "update.start" = true →
       getKey pkvs "id" = some x →
       getKey (setKey rkvs "id" x) "id" = some x ∧
       process_notification d (.dict mkvs) =
         (emitLoop (d.counter_name.getD d.resource_name)
            (d.unit.getD d.resource_name)
            (.dict (setKey mkvs "payload"
              (.dict (setKey pkvs d.resource_name
                (.dict (setKey rkvs "id" x))))))
            [.dict (setKey rkvs "id" x)]).map
           (fun ss => (.dict (setKey mkvs "payload"
              (.dict (setKey pkvs d.resource_name
                (.dict (setKey rkvs "id" x))))), ss))) ∧
    (∀ (d : Descriptor) (mkvs pkvs : List (String × Val)) (items : List Val),
       getKey mkvs "payload" = some (.dict pkvs) →
       truthy ((getKey pkvs d.resource_name).getD Val.none) = false →
       getKey pkvs (d.resource_name ++ "s") = some (.list items) →
       process_notification d (.dict mkvs) =
         (emitLoop (d.counter_name.getD d.resource_name)
            (d.unit.getD d.resource_name) (.dict mkvs) items).map
           (fun ss => (.dict mkvs, ss))) :=
  ⟨fun d mkvs pkvs rkvs x ets hp hr hne he hes hx =>
     ⟨getKey_setKey_self ..,
      process_backfill d mkvs pkvs rkvs x ets hp hr hne he hes hx⟩,
   fun d mkvs pkvs items hp htr hpl =>
     process_plural d mkvs pkvs items hp htr hpl⟩

/-- Witness for C10: a resource already carrying id `OLD` is overwritten
with the payload's top-level id `NEW`; a plural collection passes through
untouched. -/
theorem c10_backfill_scope_witness :
    (getKey (setKey c10rkvs "id" (.str "NEW")) "id" = some (.str "NEW") ∧
     process_notification Network (.dict c10kvs) =
       (emitLoop "network" "network"
          (.dict (setKey c10kvs "payload" (.dict (setKey c10pkvs "network"
            (.dict (setKey c10rkvs "id" (.str "NEW")))))))
          [.dict (setKey c10rkvs "id" (.str "NEW"))]).map
         (fun ss => (.dict (setKey c10kvs "payload"
            (.dict (setKey c10pkvs "network"
              (.dict (setKey c10rkvs "id" (.str "NEW")))))), ss))) ∧
    process_notification Network (.dict c10bkvs) =
      (emitLoop "network" "network" (.dict c10bkvs)
         [.dict [("id", .str "n1")]]).map (fun ss => (.dict c10bkvs, ss)) :=
  ⟨c10_backfill_scope.1 Network c10kvs c10pkvs c10rkvs (.str "NEW")
     "network.update.start" rfl rfl (by simp [c10rkvs]) rfl rfl rfl,
   c10_backfill_scope.2 Network c10bkvs
     [("networks", .list [.dict [("id", .str "n1")]])]
     [.dict [("id", .str "n1")]] rfl rfl rfl⟩

end Ceilometer
